import Mathlib

/-!
Verification development for the bridge listener script.

The embedding below follows the source module closely:

* `StateFile` and `loadState` model the persisted checkpoint file and the
  load logic of the method named with an initial underscore, load_state,
  on EventScanner: a readable file with the key yields its value, a
  readable file without the key yields 0, and a missing or unparseable
  file falls back to the current block number (0 when not connected).
* `saveState` models save_state: a write failure (IOError) is caught and
  only logged, leaving the file with its previous contents.
* `scan_for_events` models EventScanner.scan_for_events: it computes the
  window, returns early when not connected or when the window is empty,
  filters chain logs by block range on success, and updates both the
  in-memory checkpoint and the file before returning the events; any
  exception from the fetch is caught and yields an empty list with the
  state untouched.
* `simulate_claim_withdrawal` models TransactionRelayer: each successful
  call builds and signs a fresh transaction (recorded in `signedLog`);
  failures are caught and logged, leaving the log unchanged. There is no
  per-event record keeping in the source.
* `process_event` and `processWindow` model BridgeListener.process_event
  and the per-window loop in BridgeListener.run: missing event arguments
  (KeyError) and relay failures are caught per event.
* `Step`, `stepScanner` and `runTrace` model the lifetime of one scanner
  instance: scan cycles interleaved with process restarts that reload the
  persisted file.
-/

namespace FttMix

/-- An event log as returned by the chain client. The `user` and `amount`
arguments may be absent from a log (the source accesses them by key and
catches the resulting KeyError). -/
structure LogReceipt where
  blockNumber : Nat
  logIndex : Nat
  transactionHash : Nat
  user : Option Nat
  amount : Option Nat
deriving DecidableEq

/-- The persisted checkpoint file.
`missing`: no file on disk. `corrupt`: the file exists but reading or
JSON-parsing it fails. `noKey`: valid JSON without the checkpoint key.
`value n`: valid JSON storing checkpoint `n`. -/
inductive StateFile where
  | missing
  | corrupt
  | noKey
  | value (n : Nat)
deriving DecidableEq

/-- Load of the checkpoint on scanner construction.  The second argument is
the chain height when connected (`none` when the web3 handle is absent).
Matches the source: a present key returns its value; valid JSON without the
key returns the dict-get default 0; a missing or unreadable file falls back
to the current block number, and to 0 when not connected. -/
def loadState : StateFile → Option Nat → Nat
  | .value n, _ => n
  | .noKey, _ => 0
  | .missing, some h => h
  | .missing, none => 0
  | .corrupt, some h => h
  | .corrupt, none => 0

/-- Persisting the checkpoint.  `saveOk = false` models an IOError, which
the source catches and logs, leaving the old file contents in place. -/
def saveState (file : StateFile) (n : Nat) (saveOk : Bool) : StateFile :=
  if saveOk then .value n else file

/-- The scanner state: the in-memory checkpoint and the persisted file. -/
structure Scanner where
  last_scanned_block : Nat
  state_file : StateFile
deriving DecidableEq

/-- The external environment of one scan invocation: connection status,
chain height, the logs present on chain, and whether the log fetch and the
state save succeed. -/
structure ScanEnv where
  connected : Bool
  latestBlock : Nat
  chainLogs : List LogReceipt
  fetchOk : Bool
  saveOk : Bool
deriving DecidableEq

/-- The log fetch: all watched events with block number in `[lo, hi]`. -/
def fetchLogs (logs : List LogReceipt) (lo hi : Int) : List LogReceipt :=
  logs.filter (fun e => decide (lo ≤ (e.blockNumber : Int) ∧ (e.blockNumber : Int) ≤ hi))

/-- Result of one scan invocation: the returned events, the scanner state
after the call, and whether a log query was issued. -/
structure ScanOutcome where
  events : List LogReceipt
  scanner : Scanner
  fetchIssued : Bool
deriving DecidableEq

/-- EventScanner.scan_for_events.  Window arithmetic is over `Int` because
the source computes it over unbounded Python integers. -/
def scan_for_events (s : Scanner) (env : ScanEnv) (confirmation_blocks : Nat) : ScanOutcome :=
  if env.connected then
    let to_block : Int := (env.latestBlock : Int) - (confirmation_blocks : Int)
    let from_block : Int := (s.last_scanned_block : Int) + 1
    if from_block > to_block then
      ⟨[], s, false⟩
    else if env.fetchOk then
      ⟨fetchLogs env.chainLogs from_block to_block,
        ⟨to_block.toNat, saveState s.state_file to_block.toNat env.saveOk⟩,
        true⟩
    else
      ⟨[], s, true⟩
  else
    ⟨[], s, false⟩

/-- The event data handed to the relayer (user, amount, source tx hash). -/
structure EventData where
  user : Nat
  amount : Nat
  sourceTxHash : Nat
deriving DecidableEq

/-- Environment of one relay call: the nonce read from the destination
chain and whether building and signing succeed. -/
structure RelayEnv where
  nonce : Nat
  buildOk : Bool
  signOk : Bool
deriving DecidableEq

/-- The relayer keeps no record set in the source; the only trace of its
work is the sequence of transactions it has built and signed, recorded
here as (sourceTxHash, nonce) pairs. -/
structure RelayerState where
  signedLog : List (Nat × Nat)
deriving DecidableEq

/-- TransactionRelayer.simulate_claim_withdrawal: on success a fresh
transaction is built and signed (appended to the log); any exception is
caught and logged, leaving the state unchanged.  No lookup of any prior
record for the event takes place. -/
def simulate_claim_withdrawal (r : RelayerState) (env : RelayEnv) (e : EventData) : RelayerState :=
  if env.buildOk && env.signOk then
    ⟨r.signedLog ++ [(e.sourceTxHash, env.nonce)]⟩
  else
    r

/-- Outcome of processing one event in the per-window loop. -/
inductive EventOutcome where
  | relayed
  | relayFailed
  | missingArgs
deriving DecidableEq

/-- BridgeListener.process_event: extract the event arguments (a missing
key raises KeyError, caught and logged there) and trigger the relayer. -/
def process_event (r : RelayerState) (env : RelayEnv) (ev : LogReceipt) :
    RelayerState × EventOutcome :=
  match ev.user, ev.amount with
  | some u, some a =>
      (simulate_claim_withdrawal r env ⟨u, a, ev.transactionHash⟩,
        if env.buildOk && env.signOk then .relayed else .relayFailed)
  | _, _ => (r, .missingArgs)

/-- The outcome of one event depends only on that event and its own
environment, never on earlier events of the window. -/
def eventOutcome (env : RelayEnv) (ev : LogReceipt) : EventOutcome :=
  match ev.user, ev.amount with
  | some _, some _ => if env.buildOk && env.signOk then .relayed else .relayFailed
  | _, _ => .missingArgs

/-- The per-window loop in BridgeListener.run: each event of the window is
handed to process_event in order; `renv` gives the external relay
environment of the i-th call. -/
def processWindow (r : RelayerState) (renv : Nat → RelayEnv) :
    List LogReceipt → RelayerState × List EventOutcome
  | [] => (r, [])
  | ev :: rest =>
      let p := process_event r (renv 0) ev
      let q := processWindow p.1 (fun n => renv (n + 1)) rest
      (q.1, p.2 :: q.2)

/-- The envelope of outcomes a window produces, computed per event. -/
def windowOutcomes (renv : Nat → RelayEnv) : List LogReceipt → List EventOutcome
  | [] => []
  | ev :: rest => eventOutcome (renv 0) ev :: windowOutcomes (fun n => renv (n + 1)) rest

/-- The joint state of orchestrator-owned components. -/
structure BridgeState where
  scanner : Scanner
  relayer : RelayerState
deriving DecidableEq

/-- One iteration of the main loop of BridgeListener.run: scan, then hand
every returned event to process_event, then sleep (not modeled). -/
def runCycle (b : BridgeState) (env : ScanEnv) (conf : Nat) (renv : Nat → RelayEnv) :
    BridgeState × List EventOutcome :=
  let out := scan_for_events b.scanner env conf
  let pw := processWindow b.relayer renv out.events
  (⟨out.scanner, pw.1⟩, pw.2)

/-- One step of a scanner instance lifetime: a scan cycle, or a process
restart that rebuilds the scanner by reloading the persisted file (the
chain height at restart is the argument of `restart`). -/
inductive Step where
  | scanStep (env : ScanEnv) (conf : Nat)
  | restart (web3 : Option Nat)

/-- Effect of one lifetime step on the scanner state. -/
def stepScanner (s : Scanner) : Step → Scanner
  | .scanStep env conf => (scan_for_events s env conf).scanner
  | .restart web3 => ⟨loadState s.state_file web3, s.state_file⟩

/-- The sequence of checkpoint values observed after each lifetime step. -/
def runTrace (s : Scanner) : List Step → List Nat
  | [] => []
  | st :: rest =>
      let t := stepScanner s st
      t.last_scanned_block :: runTrace t rest

/-- Decidable check that a list of numbers never decreases. -/
def nondecreasing : List Nat → Bool
  | [] => true
  | [_] => true
  | a :: b :: rest => decide (a ≤ b) && nondecreasing (b :: rest)

/-- Whether a step persists everything it changes (restarts trivially so). -/
def stepSavesOk : Step → Bool
  | .scanStep env _ => env.saveOk
  | .restart _ => true

end FttMix

namespace FttMix

/-! ### Helper lemmas shared by several claims -/

theorem process_event_snd_eq (r : RelayerState) (env : RelayEnv) (ev : LogReceipt) :
    (process_event r env ev).2 = eventOutcome env ev := by
  obtain ⟨bn, li, th, u, a⟩ := ev
  cases u <;> cases a <;> rfl

theorem processWindow_snd_eq (r : RelayerState) (renv : Nat → RelayEnv)
    (evs : List LogReceipt) :
    (processWindow r renv evs).2 = windowOutcomes renv evs := by
  induction evs generalizing r renv with
  | nil => rfl
  | cons ev rest ih =>
      simp only [processWindow, windowOutcomes]
      rw [process_event_snd_eq, ih]

theorem windowOutcomes_length (renv : Nat → RelayEnv) (evs : List LogReceipt) :
    (windowOutcomes renv evs).length = evs.length := by
  induction evs generalizing renv with
  | nil => rfl
  | cons ev rest ih =>
      simp only [windowOutcomes, List.length_cons, ih]

theorem scanStep_mono (s : Scanner) (env : ScanEnv) (conf : Nat) :
    s.last_scanned_block ≤ (scan_for_events s env conf).scanner.last_scanned_block := by
  simp only [scan_for_events]
  split_ifs with hc hw hf <;> simp only [] <;> omega

theorem scanStep_sync (s : Scanner) (env : ScanEnv) (conf : Nat)
    (hs : env.saveOk = true) (hsync : s.state_file = .value s.last_scanned_block) :
    (scan_for_events s env conf).scanner.state_file =
      .value (scan_for_events s env conf).scanner.last_scanned_block := by
  simp only [scan_for_events]
  split_ifs with hc hw hf <;> simp only [saveState, hs, if_true] <;> exact hsync

theorem restart_id_of_sync (s : Scanner) (w : Option Nat)
    (hsync : s.state_file = .value s.last_scanned_block) :
    stepScanner s (.restart w) = s := by
  simp only [stepScanner, hsync, loadState]
  rw [← hsync]

theorem nondecreasing_cons (a b : Nat) (l : List Nat) :
    nondecreasing (a :: b :: l) = (decide (a ≤ b) && nondecreasing (b :: l)) := rfl

end FttMix

namespace FttMix

/-! ### Claim theorems -/

/-- C4: scan_for_events computes its window as from = checkpoint + 1 and
to = latest minus confirmations, and every event it returns lies in the
inclusive block range [from, to]. -/
theorem scan_events_within_window (s : Scanner) (env : ScanEnv) (conf : Nat)
    (e : LogReceipt) (he : e ∈ (scan_for_events s env conf).events) :
    (s.last_scanned_block : Int) + 1 ≤ (e.blockNumber : Int) ∧
    (e.blockNumber : Int) ≤ (env.latestBlock : Int) - (conf : Int) := by
  revert he
  simp only [scan_for_events]
  split_ifs with hc hw hf
  · intro he; simp at he
  · intro he
    rw [fetchLogs, List.mem_filter] at he
    exact of_decide_eq_true he.2
  · intro he; simp at he
  · intro he; simp at he

/-- C4 witness: with latest 20, confirmations 5 and checkpoint 9, an event
at block 12 is returned by scan and indeed lies in [10, 15]. -/
theorem scan_events_within_window_witness :
    ((⟨12, 0, 7, some 1, some 2⟩ : LogReceipt) ∈
      (scan_for_events ⟨9, .value 9⟩ ⟨true, 20, [⟨12, 0, 7, some 1, some 2⟩], true, true⟩
        5).events) ∧
    (((9 : Nat) : Int) + 1 ≤ ((12 : Nat) : Int) ∧
      ((12 : Nat) : Int) ≤ ((20 : Nat) : Int) - ((5 : Nat) : Int)) :=
  ⟨by decide,
    scan_events_within_window ⟨9, .value 9⟩
      ⟨true, 20, [⟨12, 0, 7, some 1, some 2⟩], true, true⟩ 5
      ⟨12, 0, 7, some 1, some 2⟩ (by decide)⟩

/-- C5: when the computed window satisfies from > to, scan_for_events
returns the empty list, leaves the scanner state (checkpoint and file)
untouched, and issues no log fetch. -/
theorem scan_waiting_no_side_effects (s : Scanner) (env : ScanEnv) (conf : Nat)
    (h : (env.latestBlock : Int) - (conf : Int) < (s.last_scanned_block : Int) + 1) :
    scan_for_events s env conf = ⟨[], s, false⟩ := by
  simp only [scan_for_events]
  split_ifs <;> rfl

/-- C5 witness: checkpoint 9, latest 10, confirmations 5 give from = 10 over
to = 5, and the scan is a no-op. -/
theorem scan_waiting_no_side_effects_witness :
    (((10 : Nat) : Int) - ((5 : Nat) : Int) < ((9 : Nat) : Int) + 1) ∧
    scan_for_events ⟨9, .value 9⟩ ⟨true, 10, [], true, true⟩ 5 = ⟨[], ⟨9, .value 9⟩, false⟩ :=
  ⟨by decide, scan_waiting_no_side_effects ⟨9, .value 9⟩ ⟨true, 10, [], true, true⟩ 5 (by decide)⟩

/-- C6: when a log fetch is issued for a non-empty window and the query
fails, scan_for_events returns the empty list and leaves the scanner state
unchanged, so the next cycle recomputes the very same window. -/
theorem scan_fetch_failure_unchanged (s : Scanner) (env : ScanEnv) (conf : Nat)
    (hc : env.connected = true) (hf : env.fetchOk = false)
    (hw : (s.last_scanned_block : Int) + 1 ≤ (env.latestBlock : Int) - (conf : Int)) :
    (scan_for_events s env conf).events = [] ∧
    (scan_for_events s env conf).scanner = s ∧
    (scan_for_events s env conf).fetchIssued = true := by
  simp only [scan_for_events]
  split_ifs <;> first | exact ⟨rfl, rfl, rfl⟩ | omega | simp_all

/-- C6 witness: checkpoint 9, latest 20, confirmations 5 and a failing
fetch leave the scanner untouched with an empty result. -/
theorem scan_fetch_failure_unchanged_witness :
    ((⟨true, 20, [], false, true⟩ : ScanEnv).connected = true) ∧
    ((⟨true, 20, [], false, true⟩ : ScanEnv).fetchOk = false) ∧
    (((9 : Nat) : Int) + 1 ≤ ((20 : Nat) : Int) - ((5 : Nat) : Int)) ∧
    ((scan_for_events ⟨9, .value 9⟩ ⟨true, 20, [], false, true⟩ 5).events = [] ∧
      (scan_for_events ⟨9, .value 9⟩ ⟨true, 20, [], false, true⟩ 5).scanner = ⟨9, .value 9⟩ ∧
      (scan_for_events ⟨9, .value 9⟩ ⟨true, 20, [], false, true⟩ 5).fetchIssued = true) :=
  ⟨rfl, rfl, by decide,
    scan_fetch_failure_unchanged ⟨9, .value 9⟩ ⟨true, 20, [], false, true⟩ 5 rfl rfl (by decide)⟩

/-- C10: per-event error containment.  The outcome sequence of a window is
computed pointwise per event, independently of the relayer state left by
earlier events, and it covers every event of the window: a failure on one
event (missing argument or relay failure) never prevents any subsequent
event from being processed, and the cycle still yields one outcome per
scanned event. -/
theorem per_event_error_containment (renv : Nat → RelayEnv) :
    (∀ (r : RelayerState) (evs : List LogReceipt),
        (processWindow r renv evs).2 = windowOutcomes renv evs ∧
        (processWindow r renv evs).2.length = evs.length) ∧
    (∀ (b : BridgeState) (env : ScanEnv) (conf : Nat),
        (runCycle b env conf renv).2.length =
          (scan_for_events b.scanner env conf).events.length) := by
  constructor
  · intro r evs
    refine ⟨processWindow_snd_eq r renv evs, ?_⟩
    rw [processWindow_snd_eq, windowOutcomes_length]
  · intro b env conf
    show (processWindow b.relayer renv (scan_for_events b.scanner env conf).events).2.length = _
    rw [processWindow_snd_eq, windowOutcomes_length]

end FttMix

namespace FttMix

/-- C1 counterexample: a scan invocation that returns a (here empty) event
sequence and nevertheless changes the stored checkpoint itself — with
checkpoint 9, latest 20, confirmations 5 the scanner state after the call
holds 15, not 9, before any event reaches the relayer. -/
theorem scanner_never_commits_counterexample :
    (scan_for_events ⟨9, .value 9⟩ ⟨true, 20, [], true, true⟩ 5).scanner =
      ⟨15, .value 15⟩ ∧
    (scan_for_events ⟨9, .value 9⟩ ⟨true, 20, [], true, true⟩ 5).scanner ≠
      ⟨9, .value 9⟩ := by decide

/-- C1 amended: the scanner itself commits the checkpoint.  On a successful
fetch of a non-empty window it sets the checkpoint to the window end
(latest minus confirmations) before returning the events, and the
orchestrator performs no commit of its own: the scanner state after a full
cycle is exactly the state scan_for_events produced. -/
theorem scanner_commits_window_end (b : BridgeState) (env : ScanEnv) (conf : Nat)
    (renv : Nat → RelayEnv)
    (hc : env.connected = true) (hf : env.fetchOk = true)
    (hw : (b.scanner.last_scanned_block : Int) + 1 ≤ (env.latestBlock : Int) - (conf : Int)) :
    (scan_for_events b.scanner env conf).scanner.last_scanned_block =
      ((env.latestBlock : Int) - (conf : Int)).toNat ∧
    (runCycle b env conf renv).1.scanner = (scan_for_events b.scanner env conf).scanner := by
  refine ⟨?_, rfl⟩
  simp only [scan_for_events]
  split_ifs <;> first | rfl | omega

/-- C1 amended witness: the commit by the scanner at checkpoint 9,
latest 20, confirmations 5. -/
theorem scanner_commits_window_end_witness :
    ((⟨true, 20, [], true, true⟩ : ScanEnv).connected = true) ∧
    ((⟨true, 20, [], true, true⟩ : ScanEnv).fetchOk = true) ∧
    (((⟨⟨9, .value 9⟩, ⟨[]⟩⟩ : BridgeState).scanner.last_scanned_block : Int) + 1 ≤
      ((20 : Nat) : Int) - ((5 : Nat) : Int)) ∧
    ((scan_for_events (⟨⟨9, .value 9⟩, ⟨[]⟩⟩ : BridgeState).scanner
        ⟨true, 20, [], true, true⟩ 5).scanner.last_scanned_block =
      (((20 : Nat) : Int) - ((5 : Nat) : Int)).toNat ∧
      (runCycle ⟨⟨9, .value 9⟩, ⟨[]⟩⟩ ⟨true, 20, [], true, true⟩ 5 (fun _ => ⟨0, true, true⟩)).1.scanner =
        (scan_for_events (⟨⟨9, .value 9⟩, ⟨[]⟩⟩ : BridgeState).scanner
          ⟨true, 20, [], true, true⟩ 5).scanner) :=
  ⟨rfl, rfl, by decide,
    scanner_commits_window_end ⟨⟨9, .value 9⟩, ⟨[]⟩⟩ ⟨true, 20, [], true, true⟩ 5
      (fun _ => ⟨0, true, true⟩) rfl rfl (by decide)⟩

/-- C2 counterexample: the relayer performs a second build and sign for the
same event identity.  Starting from an empty log, two relay calls for the
event with source tx hash 42 leave two signed transactions, where the claim
requires the second call to perform no additional build or sign. -/
theorem relay_idempotent_counterexample :
    (simulate_claim_withdrawal
        (simulate_claim_withdrawal ⟨[]⟩ ⟨0, true, true⟩ ⟨1, 100, 42⟩)
        ⟨0, true, true⟩ ⟨1, 100, 42⟩).signedLog.length = 2 ∧
    (simulate_claim_withdrawal
        (simulate_claim_withdrawal ⟨[]⟩ ⟨0, true, true⟩ ⟨1, 100, 42⟩)
        ⟨0, true, true⟩ ⟨1, 100, 42⟩) ≠
      simulate_claim_withdrawal ⟨[]⟩ ⟨0, true, true⟩ ⟨1, 100, 42⟩ := by decide

/-- C2 amended: the relayer keeps no per-event record and performs no
idempotent short-circuit.  Every call whose build and sign succeed appends
a fresh signed transaction for the event, so a repeated call for the same
event identity signs again. -/
theorem relay_signs_every_call (r : RelayerState) (env : RelayEnv) (e : EventData)
    (h : (env.buildOk && env.signOk) = true) :
    (simulate_claim_withdrawal r env e).signedLog =
      r.signedLog ++ [(e.sourceTxHash, env.nonce)] := by
  simp [simulate_claim_withdrawal, h]

/-- C2 amended witness: one successful call on an empty log signs exactly
the transaction for the event. -/
theorem relay_signs_every_call_witness :
    (((⟨0, true, true⟩ : RelayEnv).buildOk && (⟨0, true, true⟩ : RelayEnv).signOk) = true) ∧
    (simulate_claim_withdrawal ⟨[]⟩ ⟨0, true, true⟩ ⟨1, 100, 42⟩).signedLog =
      (⟨[]⟩ : RelayerState).signedLog ++ [((⟨1, 100, 42⟩ : EventData).sourceTxHash, (⟨0, true, true⟩ : RelayEnv).nonce)] :=
  ⟨rfl, relay_signs_every_call ⟨[]⟩ ⟨0, true, true⟩ ⟨1, 100, 42⟩ rfl⟩

/-- C7 counterexample: with a corrupt state file and current height 20 the
load falls back to 20 itself, not to 20 minus the confirmation depth 5. -/
theorem corrupt_fallback_counterexample :
    loadState .corrupt (some 20) = 20 ∧ loadState .corrupt (some 20) ≠ 20 - 5 := by decide

/-- C7 amended: when the stored checkpoint cannot be parsed, the load falls
back to the current block height itself (confirmations play no role), and
to 0 when the chain connection is absent. -/
theorem corrupt_fallback_current_height (h : Nat) :
    loadState .corrupt (some h) = h ∧ loadState .corrupt none = 0 :=
  ⟨rfl, rfl⟩

/-- C8 counterexample: with no state file at all and current height 7 the
load returns 7, not 0. -/
theorem no_checkpoint_counterexample :
    loadState .missing (some 7) = 7 ∧ loadState .missing (some 7) ≠ 0 := by decide

/-- C8 amended: a readable state file without the checkpoint key yields the
default 0; a missing state file yields the current block height instead,
and 0 only when the chain connection is absent. -/
theorem no_checkpoint_defaults (h : Nat) (w : Option Nat) :
    loadState .noKey w = 0 ∧ loadState .missing (some h) = h ∧ loadState .missing none = 0 := by
  cases w <;> exact ⟨rfl, rfl, rfl⟩

/-- C9 counterexample: a failing checkpoint save is swallowed — with
checkpoint 9, latest 20, confirmations 5 and a save failure, the in-memory
checkpoint still advances to 15 (the file keeps 9), so the next cycle does
not retry the window. -/
theorem commit_failure_counterexample :
    (scan_for_events ⟨9, .value 9⟩ ⟨true, 20, [], true, false⟩ 5).scanner.last_scanned_block = 15 ∧
    (scan_for_events ⟨9, .value 9⟩ ⟨true, 20, [], true, false⟩ 5).scanner.last_scanned_block ≠ 9 ∧
    (scan_for_events ⟨9, .value 9⟩ ⟨true, 20, [], true, false⟩ 5).scanner.state_file = .value 9 := by
  decide

/-- C9 amended: an I/O failure while committing the checkpoint is caught
inside the save routine and only logged; it is not surfaced as a cycle
failure, the in-memory checkpoint still advances to the window end while
the file keeps its previous contents, so the next cycle scans the
following window instead of retrying. -/
theorem commit_failure_swallowed (s : Scanner) (env : ScanEnv) (conf : Nat)
    (hc : env.connected = true) (hf : env.fetchOk = true) (hs : env.saveOk = false)
    (hw : (s.last_scanned_block : Int) + 1 ≤ (env.latestBlock : Int) - (conf : Int)) :
    (scan_for_events s env conf).scanner.last_scanned_block =
      ((env.latestBlock : Int) - (conf : Int)).toNat ∧
    (scan_for_events s env conf).scanner.state_file = s.state_file := by
  simp only [scan_for_events]
  split_ifs <;> first | exact ⟨rfl, by simp [saveState, hs]⟩ | omega

/-- C9 amended witness: the swallowed save failure at checkpoint 9,
latest 20, confirmations 5. -/
theorem commit_failure_swallowed_witness :
    ((⟨true, 20, [], true, false⟩ : ScanEnv).connected = true) ∧
    ((⟨true, 20, [], true, false⟩ : ScanEnv).fetchOk = true) ∧
    ((⟨true, 20, [], true, false⟩ : ScanEnv).saveOk = false) ∧
    (((9 : Nat) : Int) + 1 ≤ ((20 : Nat) : Int) - ((5 : Nat) : Int)) ∧
    ((scan_for_events ⟨9, .value 9⟩ ⟨true, 20, [], true, false⟩ 5).scanner.last_scanned_block =
        (((20 : Nat) : Int) - ((5 : Nat) : Int)).toNat ∧
      (scan_for_events ⟨9, .value 9⟩ ⟨true, 20, [], true, false⟩ 5).scanner.state_file =
        (⟨9, .value 9⟩ : Scanner).state_file) :=
  ⟨rfl, rfl, rfl, by decide,
    commit_failure_swallowed ⟨9, .value 9⟩ ⟨true, 20, [], true, false⟩ 5 rfl rfl rfl (by decide)⟩

end FttMix

namespace FttMix

/-- C3 counterexample: the checkpoint regresses across a restart.  Starting
in sync at 5, one scan cycle (latest 20, confirmations 0) advances the
in-memory checkpoint to 20 but its save fails, so the file keeps 5; a
restart then reloads 5, and the observed checkpoint sequence 5, 20, 5 is
not non-decreasing. -/
theorem checkpoint_monotone_counterexample :
    nondecreasing
      ((5 : Nat) ::
        runTrace ⟨5, .value 5⟩
          [.scanStep ⟨true, 20, [], true, false⟩ 0, .restart (some 20)]) = false := by
  decide

/-- C3 amended: the checkpoint is monotonically non-decreasing over any
lifetime of scan cycles and restarts provided every checkpoint save
succeeds (the scanner starting in sync with its file); a failed save is
only logged, so without that proviso a restart can regress the checkpoint
to the last successfully persisted value. -/
theorem checkpoint_monotone_when_saves_succeed (s : Scanner) (steps : List Step)
    (hsync : s.state_file = .value s.last_scanned_block)
    (hsave : ∀ st ∈ steps, stepSavesOk st = true) :
    nondecreasing (s.last_scanned_block :: runTrace s steps) = true := by
  induction steps generalizing s with
  | nil => rfl
  | cons st rest ih =>
      have hrest : ∀ u ∈ rest, stepSavesOk u = true :=
        fun u hu => hsave u (List.mem_cons_of_mem st hu)
      cases st with
      | scanStep env conf =>
          have hsk : env.saveOk = true := hsave _ (List.mem_cons_self _ _)
          have hmono := scanStep_mono s env conf
          have hsync' := scanStep_sync s env conf hsk hsync
          show nondecreasing
            (s.last_scanned_block ::
              (scan_for_events s env conf).scanner.last_scanned_block ::
              runTrace (scan_for_events s env conf).scanner rest) = true
          rw [nondecreasing_cons, ih _ hsync' hrest,
            decide_eq_true hmono, Bool.and_self]
      | restart w =>
          have hid := restart_id_of_sync s w hsync
          show nondecreasing
            (s.last_scanned_block ::
              (stepScanner s (.restart w)).last_scanned_block ::
              runTrace (stepScanner s (.restart w)) rest) = true
          rw [hid, nondecreasing_cons, ih s hsync hrest,
            decide_eq_true (Nat.le_refl s.last_scanned_block), Bool.and_self]

/-- C3 amended witness: a lifetime of two successfully saved scan cycles
and a restart, starting in sync at checkpoint 5, keeps the observed
checkpoint sequence non-decreasing. -/
theorem checkpoint_monotone_when_saves_succeed_witness :
    ((⟨5, .value 5⟩ : Scanner).state_file =
        .value (⟨5, .value 5⟩ : Scanner).last_scanned_block) ∧
    (∀ st ∈ [Step.scanStep ⟨true, 20, [], true, true⟩ 0,
        Step.restart (some 20),
        Step.scanStep ⟨true, 30, [], true, true⟩ 5], stepSavesOk st = true) ∧
    nondecreasing
      ((⟨5, .value 5⟩ : Scanner).last_scanned_block ::
        runTrace ⟨5, .value 5⟩
          [Step.scanStep ⟨true, 20, [], true, true⟩ 0,
            Step.restart (some 20),
            Step.scanStep ⟨true, 30, [], true, true⟩ 5]) = true :=
  ⟨rfl, by decide,
    checkpoint_monotone_when_saves_succeed ⟨5, .value 5⟩
      [Step.scanStep ⟨true, 20, [], true, true⟩ 0,
        Step.restart (some 20),
        Step.scanStep ⟨true, 30, [], true, true⟩ 5]
      rfl (by decide)⟩

end FttMix
